import Mathlib

/-!
Shallow embedding of `pricingapp.py`, a Streamlit price-comparison app.

Modelling conventions:
* One HTTP GET is abstracted as an `HttpOutcome`: either a response with a
  numeric status code, or a transport-level failure (timeout, DNS, connection
  error — anything that raises in `requests.get`).
* The network environment is a function `net : Retailer → HttpOutcome`
  giving the outcome of the single GET each probe issues.
* Python decimals (`your_price`, `competitor_price`) are modelled as exact
  rationals `ℚ`; Python's `round(x, 2)` becomes `pyRound2`
  (round-half-to-even at two fractional digits).
* Streamlit side effects (`st.error`, `st.success`, outbound GETs) are made
  explicit as data returned by the handler functions.
-/

namespace PricingApp

/-- Outcome of one HTTP GET request: a response carrying a status code, or a
transport-level failure (the `except` path of `search_retailer`). -/
inductive HttpOutcome where
  | response (statusCode : Nat)
  | transportFailure
deriving DecidableEq

/-- The three retailers statically configured in `search_retailer` /
`search_all_retailers`. -/
inductive Retailer where
  | amazon
  | walmart
  | bestBuy
deriving DecidableEq

/-- The display name of each retailer, as in the `retailers` list of
`search_all_retailers`. -/
def Retailer.name : Retailer → String
  | .amazon => "Amazon"
  | .walmart => "Walmart"
  | .bestBuy => "Best Buy"

/-- The `retailers` URL dictionary of `search_retailer`: each URL template
with the sku substituted into its single query-parameter slot. -/
def retailerUrl (r : Retailer) (sku : String) : String :=
  match r with
  | .amazon => "https://www.amazon.com/s?k=" ++ sku
  | .walmart => "https://www.walmart.com/search?q=" ++ sku
  | .bestBuy => "https://www.bestbuy.com/site/searchpage.jsp?st=" ++ sku

/-- The dictionary `search_retailer` returns: keys `Retailer`, `URL`,
`Status`. -/
structure ProbeResult where
  Retailer : String
  URL : String
  Status : String
deriving DecidableEq

/-- The status string returned on `response.status_code == 200`. -/
def statusAvailable : String := "Available"

/-- The status string returned from the `except` branch of
`search_retailer`. The spec's `ProbeResult.status = Error` denotes this
string. -/
def statusError : String := "Error checking availability"

/-- `search_retailer(retailer, sku)` given the outcome of its single GET:
status code 200 yields the `Available` dictionary; any other status code
falls off the end of the function (Python returns `None`); any raised
exception yields the error dictionary. -/
def search_retailer (retailer : Retailer) (sku : String)
    (outcome : HttpOutcome) : Option ProbeResult :=
  match outcome with
  | .response code =>
      if code == 200 then
        some { Retailer := retailer.name, URL := retailerUrl retailer sku,
               Status := statusAvailable }
      else
        none
  | .transportFailure =>
      some { Retailer := retailer.name, URL := retailerUrl retailer sku,
             Status := statusError }

/-- The fan-out loop of `search_all_retailers`, parameterised by the list of
submitted targets: one future per target in submission order, results
harvested from the futures list in that same creation order (`for future in
futures`), `None` results dropped by `if result:`. -/
def probeTargets (targets : List Retailer) (sku : String)
    (net : Retailer → HttpOutcome) : List ProbeResult :=
  targets.filterMap (fun r => search_retailer r sku (net r))

/-- The fixed target list `['Amazon', 'Walmart', 'Best Buy']` of
`search_all_retailers`. -/
def fixedRetailers : List Retailer := [.amazon, .walmart, .bestBuy]

/-- `search_all_retailers(sku)`: the fan-out over the three fixed
retailers. -/
def search_all_retailers (sku : String) (net : Retailer → HttpOutcome) :
    List ProbeResult :=
  probeTargets fixedRetailers sku net

/-- The URLs GET-requested by one call to `search_all_retailers`: each
`search_retailer` task issues exactly one `requests.get` to its substituted
URL, whatever the outcome. -/
def search_all_requests (sku : String) : List String :=
  fixedRetailers.map (fun r => retailerUrl r sku)

/-- What the SKU-search tab displays after the button handler runs. -/
inductive SearchDisplay where
  | results (rs : List ProbeResult)
  | noResultsWarning
  | errorMessage (msg : String)
deriving DecidableEq

/-- One run of the Search Prices button handler: what is displayed and which
outbound GET requests were issued. -/
structure SearchRun where
  display : SearchDisplay
  requestsIssued : List String
deriving DecidableEq

/-- The Search Prices button handler (tab 2): reads `sku_input` and the
`retailers_to_search` multiselect; if `sku_input` is truthy (non-empty) it
calls `search_all_retailers(sku_input)` — the multiselect value is never
passed on — and displays the results, or a warning when the result list is
empty; otherwise it shows `st.error("Please enter a SKU number")` and issues
no request. -/
def searchPricesHandler (sku_input : String)
    (retailers_to_search : List String)
    (net : Retailer → HttpOutcome) : SearchRun :=
  if sku_input ≠ "" then
    let results := search_all_retailers sku_input net
    { display := if results.isEmpty then .noResultsWarning
                 else .results results,
      requestsIssued := search_all_requests sku_input }
  else
    { display := .errorMessage ("Please enter a SKU number"),
      requestsIssued := [] }

/-- Round-half-to-even to an integer, as Python's built-in `round` (the
numeric model is exact rationals). -/
def roundHalfEven (q : ℚ) : ℤ :=
  let f : ℤ := ⌊q⌋
  let frac : ℚ := q - f
  if frac < 1/2 then f
  else if 1/2 < frac then f + 1
  else if f % 2 = 0 then f else f + 1

/-- Python's `round(x, 2)` on the rational model: round half to even at two
fractional digits. -/
def pyRound2 (q : ℚ) : ℚ :=
  (roundHalfEven (q * 100) : ℚ) / 100

/-- One row of the `st.session_state.products` DataFrame, i.e. one price
record as built by the Add Product handler. -/
structure PriceRecord where
  productName : String
  sku : String
  yourPrice : ℚ
  competitor : String
  competitorPrice : ℚ
  priceDifference : ℚ
  dateAdded : String
deriving DecidableEq

/-- The `new_product` dictionary of the Add Product handler: the price
difference is recomputed as `round(your_price - competitor_price, 2)`;
`today` stands for `datetime.now().strftime("%Y-%m-%d")`. -/
def mkRecord (productName sku : String) (yourPrice : ℚ) (competitor : String)
    (competitorPrice : ℚ) (today : String) : PriceRecord :=
  { productName := productName
    sku := sku
    yourPrice := yourPrice
    competitor := competitor
    competitorPrice := competitorPrice
    priceDifference := pyRound2 (yourPrice - competitorPrice)
    dateAdded := today }

/-- One run of the Add Product button handler: the resulting ledger and the
user-visible messages emitted (`st.success` / `st.error`). -/
structure AddRun where
  ledger : List PriceRecord
  messages : List String
deriving DecidableEq

/-- The Add Product button handler (sidebar): if `product_name` and
`competitor` are truthy (non-empty), the new record is concatenated onto
`st.session_state.products` and a success message shown; otherwise nothing
happens — the code has no `else` branch, so no message is emitted. -/
def addProductHandler (ledger : List PriceRecord)
    (product_name sku : String) (your_price : ℚ) (competitor : String)
    (competitor_price : ℚ) (today : String) : AddRun :=
  if product_name ≠ "" ∧ competitor ≠ "" then
    { ledger := ledger ++ [mkRecord product_name sku your_price competitor
                             competitor_price today],
      messages := ["Product added successfully!"] }
  else
    { ledger := ledger, messages := [] }

/-- The inputs of one Add Product click (the five sidebar widgets plus the
current date). -/
structure AddInput where
  productName : String
  sku : String
  yourPrice : ℚ
  competitor : String
  competitorPrice : ℚ
  dateAdded : String
deriving DecidableEq

/-- The record a given add input produces. -/
def recordOfInput (i : AddInput) : PriceRecord :=
  mkRecord i.productName i.sku i.yourPrice i.competitor i.competitorPrice
    i.dateAdded

/-- A sequence of Add Product clicks folded over the ledger. -/
def runAdds (ledger : List PriceRecord) (inputs : List AddInput) :
    List PriceRecord :=
  inputs.foldl
    (fun l i =>
      (addProductHandler l i.productName i.sku i.yourPrice i.competitor
        i.competitorPrice i.dateAdded).ledger)
    ledger

/-- One row of the CSV export (`to_csv(index=False)`): the field values of
one record, one row per record in ledger order. Text serialisation of the
cells is presentation and not modelled. -/
structure CsvRow where
  productName : String
  sku : String
  yourPrice : ℚ
  competitor : String
  competitorPrice : ℚ
  priceDifference : ℚ
  dateAdded : String
deriving DecidableEq

/-- The rows of the exported CSV: the ledger serialised row by row, in
order, without an index column. -/
def to_csv_rows (ledger : List PriceRecord) : List CsvRow :=
  ledger.map (fun r =>
    { productName := r.productName
      sku := r.sku
      yourPrice := r.yourPrice
      competitor := r.competitor
      competitorPrice := r.competitorPrice
      priceDifference := r.priceDifference
      dateAdded := r.dateAdded })

/-- The network environment of claim C3: the second submitted target
(Walmart) times out, the first and third respond with status 200. -/
def netMiddleFails : Retailer → HttpOutcome
  | .walmart => .transportFailure
  | _ => .response 200

/-- The fan-out maps every transport-failing target to its error result. -/
lemma probeTargets_allErr (sku : String) (net : Retailer → HttpOutcome) :
    ∀ targets : List Retailer,
      (∀ r ∈ targets, net r = HttpOutcome.transportFailure) →
      probeTargets targets sku net =
        targets.map (fun r =>
          { Retailer := r.name, URL := retailerUrl r sku,
            Status := statusError }) := by
  intro targets
  induction targets with
  | nil => intro _; rfl
  | cons a t ih =>
      intro h
      have ha : net a = HttpOutcome.transportFailure := h a (by simp)
      have ht : ∀ r ∈ t, net r = HttpOutcome.transportFailure :=
        fun r hr => h r (by simp [hr])
      simp only [probeTargets, List.filterMap_cons, ha, search_retailer,
        List.map_cons]
      exact congrArg _ (ih ht)

/-- C1: whenever every request of a probe run fails with a transport-level
failure, the fan-out of `search_all_retailers` returns exactly one result
per submitted target, each with the error status, in submission order. -/
theorem probeAll_all_transport_errors (targets : List Retailer)
    (sku : String) (net : Retailer → HttpOutcome)
    (h : ∀ r ∈ targets, net r = HttpOutcome.transportFailure) :
    probeTargets targets sku net =
      targets.map (fun r =>
        { Retailer := r.name, URL := retailerUrl r sku,
          Status := statusError }) ∧
    (probeTargets targets sku net).length = targets.length ∧
    ∀ res ∈ probeTargets targets sku net, res.Status = statusError := by
  have e := probeTargets_allErr sku net targets h
  refine ⟨e, ?_, ?_⟩
  · rw [e]
    exact List.length_map _ _
  · intro res hres
    rw [e] at hres
    obtain ⟨r, _, rfl⟩ := List.mem_map.mp hres
    rfl

/-- C1 witness: the three fixed retailers, every request failing. -/
theorem probeAll_all_transport_errors_witness :
    probeTargets fixedRetailers "SKU123"
        (fun _ => HttpOutcome.transportFailure) =
      fixedRetailers.map (fun r =>
        { Retailer := r.name, URL := retailerUrl r "SKU123",
          Status := statusError }) ∧
    (probeTargets fixedRetailers "SKU123"
        (fun _ => HttpOutcome.transportFailure)).length =
      fixedRetailers.length ∧
    ∀ res ∈ probeTargets fixedRetailers "SKU123"
        (fun _ => HttpOutcome.transportFailure),
      res.Status = statusError :=
  probeAll_all_transport_errors fixedRetailers "SKU123"
    (fun _ => HttpOutcome.transportFailure) (fun _ _ => rfl)

/-- C2 counterexample: status code 201 is success-class (2xx), yet
`search_retailer` produces no result for it — it is omitted rather than
mapped to Available, refuting the claim that every success-class status
code yields Available. -/
theorem success_class_code_omitted_counterexample :
    (200 ≤ 201 ∧ 201 < 300) ∧
      search_retailer Retailer.amazon "X" (HttpOutcome.response 201) =
        none :=
  ⟨by decide, rfl⟩

/-- C2 amended: a response with status code exactly 200 yields a result with
status Available; a response with any other status code — success-class or
not — yields no result, so that target is omitted from the result sequence
of `search_all_retailers`. -/
theorem search_retailer_response_mapping (r : Retailer) (sku : String)
    (code : Nat) :
    search_retailer r sku (HttpOutcome.response code) =
      if code = 200 then
        some { Retailer := r.name, URL := retailerUrl r sku,
               Status := statusAvailable }
      else none := by
  unfold search_retailer
  by_cases h : code = 200 <;> simp [h]

/-- C3: in a 3-target run where the second target (Walmart) times out and
the first and third respond with status 200, the result sequence has
exactly 3 entries with statuses [Available, Error, Available]; the failing
target neither aborts nor removes the outcomes of the others. -/
theorem probeAll_tolerates_middle_failure (sku : String) :
    (search_all_retailers sku netMiddleFails).map ProbeResult.Status =
        [statusAvailable, statusError, statusAvailable] ∧
      (search_all_retailers sku netMiddleFails).length = 3 :=
  ⟨rfl, rfl⟩

/-- C4: the Search Prices handler ignores the retailers_to_search
multiselect — any two selections produce identical runs on the same SKU and
network environment — and the requests a search issues always target
exactly the three fixed retailers Amazon, Walmart, Best Buy. -/
theorem search_independent_of_selection (sku : String)
    (sel sel' : List String) (net : Retailer → HttpOutcome) :
    searchPricesHandler sku sel net = searchPricesHandler sku sel' net ∧
      search_all_requests sku =
        [retailerUrl Retailer.amazon sku, retailerUrl Retailer.walmart sku,
          retailerUrl Retailer.bestBuy sku] :=
  ⟨rfl, rfl⟩

/-- C5: with the empty SKU string the Search Prices handler displays the
error message, issues no network request and produces no result. -/
theorem empty_sku_rejected (sel : List String)
    (net : Retailer → HttpOutcome) :
    searchPricesHandler "" sel net =
      { display := SearchDisplay.errorMessage ("Please enter a SKU number"),
        requestsIssued := [] } :=
  rfl

/-- A valid add (non-empty name and competitor) appends exactly one record
and emits the success message. -/
lemma addProductHandler_valid (l : List PriceRecord) (pn sku : String)
    (y : ℚ) (comp : String) (c : ℚ) (today : String)
    (hpn : pn ≠ "") (hcomp : comp ≠ "") :
    addProductHandler l pn sku y comp c today =
      { ledger := l ++ [mkRecord pn sku y comp c today],
        messages := ["Product added successfully!"] } := by
  unfold addProductHandler
  rw [if_pos ⟨hpn, hcomp⟩]

/-- C6: a successful add with non-negative prices creates exactly one new
record whose priceDifference field is recomputed at creation time as
round(yourPrice - competitorPrice, 2). -/
theorem addRecord_priceDifference (l : List PriceRecord) (pn sku : String)
    (y : ℚ) (comp : String) (c : ℚ) (today : String)
    (hy : 0 ≤ y) (hc : 0 ≤ c) (hpn : pn ≠ "") (hcomp : comp ≠ "") :
    ∃ rec : PriceRecord,
      (addProductHandler l pn sku y comp c today).ledger = l ++ [rec] ∧
        rec.priceDifference = pyRound2 (y - c) := by
  refine ⟨mkRecord pn sku y comp c today, ?_, rfl⟩
  rw [addProductHandler_valid l pn sku y comp c today hpn hcomp]

/-- C6 witness: a concrete successful add. -/
theorem addRecord_priceDifference_witness :
    ∃ rec : PriceRecord,
      (addProductHandler [] "Gadget" "G1" 3 "ACME" 1 "2026-10-12").ledger =
          [] ++ [rec] ∧
        rec.priceDifference = pyRound2 (3 - 1) :=
  addRecord_priceDifference [] "Gadget" "G1" 3 "ACME" 1 "2026-10-12"
    (by norm_num) (by norm_num) (by decide) (by decide)

/-- C7: exporting the one-record ledger built by adding Widget (yourPrice
9.99, competitorPrice 10.49) yields a single CSV row whose priceDifference
field equals -0.50. -/
theorem export_widget_priceDifference (today : String) :
    (to_csv_rows
        (addProductHandler [] "Widget" "W1" (9.99 : ℚ) "ACME" (10.49 : ℚ)
          today).ledger).map CsvRow.priceDifference = [(-0.50 : ℚ)] := by
  rw [addProductHandler_valid [] "Widget" "W1" (9.99 : ℚ) "ACME"
    (10.49 : ℚ) today (by decide) (by decide)]
  show [pyRound2 ((9.99 : ℚ) - 10.49)] = [(-0.50 : ℚ)]
  norm_num [pyRound2, roundHalfEven]

/-- Folding valid adds appends the corresponding records in call order. -/
lemma runAdds_valid (inputs : List AddInput) :
    ∀ ledger : List PriceRecord,
      (∀ i ∈ inputs, i.productName ≠ "" ∧ i.competitor ≠ "") →
      runAdds ledger inputs = ledger ++ inputs.map recordOfInput := by
  induction inputs with
  | nil => intro l _; simp [runAdds]
  | cons a t ih =>
      intro l h
      have ha := h a (by simp)
      have ht : ∀ i ∈ t, i.productName ≠ "" ∧ i.competitor ≠ "" :=
        fun i hi => h i (by simp [hi])
      have step :
          (addProductHandler l a.productName a.sku a.yourPrice a.competitor
            a.competitorPrice a.dateAdded).ledger =
            l ++ [recordOfInput a] := by
        rw [addProductHandler_valid l a.productName a.sku a.yourPrice
          a.competitor a.competitorPrice a.dateAdded ha.1 ha.2]
        rfl
      calc runAdds l (a :: t)
          = runAdds (l ++ [recordOfInput a]) t := by
            simp only [runAdds, List.foldl_cons, step]
        _ = (l ++ [recordOfInput a]) ++ t.map recordOfInput := ih _ ht
        _ = l ++ (a :: t).map recordOfInput := by simp

/-- C8: after N successful adds starting from the empty ledger, the ledger
holds exactly N records, in the order of the calls that created them. -/
theorem ledger_after_n_adds (inputs : List AddInput)
    (h : ∀ i ∈ inputs, i.productName ≠ "" ∧ i.competitor ≠ "") :
    runAdds [] inputs = inputs.map recordOfInput ∧
      (runAdds [] inputs).length = inputs.length := by
  have e := runAdds_valid inputs [] h
  rw [List.nil_append] at e
  exact ⟨e, by rw [e]; exact List.length_map _ _⟩

/-- A concrete add input used by the C8 witness. -/
def sampleInput1 : AddInput :=
  { productName := "Widget", sku := "W1", yourPrice := 2,
    competitor := "ACME", competitorPrice := 1, dateAdded := "2026-10-12" }

/-- A second concrete add input used by the C8 witness. -/
def sampleInput2 : AddInput :=
  { productName := "Gizmo", sku := "G2", yourPrice := 5,
    competitor := "Birdco", competitorPrice := 7,
    dateAdded := "2026-10-12" }

/-- C8 witness: two concrete successful adds. -/
theorem ledger_after_n_adds_witness :
    runAdds [] [sampleInput1, sampleInput2] =
        [sampleInput1, sampleInput2].map recordOfInput ∧
      (runAdds [] [sampleInput1, sampleInput2]).length =
        [sampleInput1, sampleInput2].length :=
  ledger_after_n_adds [sampleInput1, sampleInput2] (by decide)

/-- C9: every successful add appends the new record at the end of the
ledger and leaves every previously existing record unchanged. -/
theorem addRecord_appends_at_end (l : List PriceRecord) (pn sku : String)
    (y : ℚ) (comp : String) (c : ℚ) (today : String)
    (hpn : pn ≠ "") (hcomp : comp ≠ "") :
    (addProductHandler l pn sku y comp c today).ledger =
        l ++ [mkRecord pn sku y comp c today] ∧
      ((addProductHandler l pn sku y comp c today).ledger).take l.length =
        l := by
  have e := addProductHandler_valid l pn sku y comp c today hpn hcomp
  rw [e]
  exact ⟨rfl, by simp⟩

/-- C9 witness: a concrete add onto a one-record ledger. -/
theorem addRecord_appends_at_end_witness :
    (addProductHandler [recordOfInput sampleInput1] "Gizmo" "G2" 5 "Birdco"
        7 "2026-10-12").ledger =
      [recordOfInput sampleInput1] ++
        [mkRecord "Gizmo" "G2" 5 "Birdco" 7 "2026-10-12"] ∧
    ((addProductHandler [recordOfInput sampleInput1] "Gizmo" "G2" 5 "Birdco"
        7 "2026-10-12").ledger).take [recordOfInput sampleInput1].length =
      [recordOfInput sampleInput1] :=
  addRecord_appends_at_end [recordOfInput sampleInput1] "Gizmo" "G2" 5
    "Birdco" 7 "2026-10-12" (by decide) (by decide)

/-- C10 counterexample: adding with an empty product name leaves the ledger
unchanged, but the handler surfaces no user-visible message at all — the
messages list is empty — refuting the claim that a validation message is
surfaced. -/
theorem invalid_add_no_message_counterexample :
    (addProductHandler [] "" "S1" 1 "ACME" 2 "2026-10-12").messages = [] ∧
      (addProductHandler [] "" "S1" 1 "ACME" 2 "2026-10-12").ledger = [] :=
  ⟨rfl, rfl⟩

/-- C10 amended: if productName or competitor is empty on a manual add, the
operation is aborted with no partial record created (the ledger is
unchanged), and no message — neither success nor validation error — is
displayed; the add fails silently. -/
theorem invalid_add_aborts_silently (l : List PriceRecord) (pn sku : String)
    (y : ℚ) (comp : String) (c : ℚ) (today : String)
    (h : pn = "" ∨ comp = "") :
    addProductHandler l pn sku y comp c today =
      { ledger := l, messages := [] } := by
  unfold addProductHandler
  rw [if_neg]
  rintro ⟨hpn, hcomp⟩
  rcases h with h | h
  · exact hpn h
  · exact hcomp h

/-- C10 witness: a concrete add with an empty competitor name. -/
theorem invalid_add_aborts_silently_witness :
    addProductHandler [] "Widget" "S1" 1 "" 2 "2026-10-12" =
      { ledger := [], messages := [] } :=
  invalid_add_aborts_silently [] "Widget" "S1" 1 "" 2 "2026-10-12"
    (Or.inr rfl)

end PricingApp
